import Mathlib

/-!
Shallow embedding of the `data_recovery` backup utility (src/backup.py and
src/restore.py) and proofs about its claims.

The scripts sequence an external `7z` process and the Google Drive API.
External effects are modelled explicitly:

* the local filesystem is `FS`, an association list of file path to byte
  size together with a list of existing directories (paths are atomic
  strings; `mkdir` with parents collapsed to one entry);
* the outcome of one external-process or API invocation is an explicit
  outcome value (`SevenZipCreateOutcome`, `DownloadOutcome`, ...), so the
  embedded function describes what the Python code does for each possible
  behaviour of its collaborator;
* console output is a list of `Msg`, each tagged with the stream it is
  printed to (every `print(...)` in the source writes to stdout);
* Python floats in the progress computation are modelled by exact
  arithmetic (`Nat` division for `int((cb / tb) * 100)`, `ℚ` for elapsed
  time, speed and ETA); the proved properties do not depend on
  floating-point rounding at the last bit.
-/

namespace DataRecovery

/-- Output stream of one console message. -/
inductive OutStream
  | stdout
  | stderr
deriving DecidableEq, Repr

/-- One console message: stream plus text. -/
structure Msg where
  stream : OutStream
  text : String
deriving DecidableEq, Repr

/-- Local filesystem: files as (path, size-in-bytes), plus existing directories. -/
structure FS where
  files : List (String × Nat)
  dirs : List String
deriving DecidableEq, Repr

/-- `Path(p).is_dir()`. -/
def FS.isDir (fs : FS) (p : String) : Bool := fs.dirs.contains p

/-- `Path(p).is_file()` / `Path(p).exists()` for files. -/
def FS.hasFile (fs : FS) (p : String) : Bool := fs.files.any (fun e => e.1 == p)

/-- Size of the file at `p`, if present. -/
def FS.fileSize (fs : FS) (p : String) : Option Nat :=
  (fs.files.find? (fun e => e.1 == p)).map (fun e => e.2)

/-- Create or truncate-and-write the file at `p` with `n` bytes (mode 'wb'). -/
def FS.writeFile (fs : FS) (p : String) (n : Nat) : FS :=
  { fs with files := (p, n) :: fs.files.filter (fun e => !(e.1 == p)) }

/-- `os.remove(p)`. -/
def FS.removeFile (fs : FS) (p : String) : FS :=
  { fs with files := fs.files.filter (fun e => !(e.1 == p)) }

/-- `Path(p).mkdir(parents=True, exist_ok=True)`, with the path kept atomic. -/
def FS.mkdir (fs : FS) (p : String) : FS :=
  if fs.dirs.contains p then fs else { fs with dirs := p :: fs.dirs }

/-!
### `create_backup` (src/backup.py lines 95-147)

The 7z child process is handed the final archive path directly
(line 118: the output argument of `7z a` is `archive_file_path` from
line 109).  Its behaviour is an explicit outcome: on exit code 0 the
archive is fully written at that path; on a nonzero exit the bytes the
tool wrote before failing remain at that same path (the Python code only
prints and returns `None`, it neither removes the file nor renames
anything); on `FileNotFoundError` nothing was written.  The temporary
shell script (written and removed inside the function, lines 120-134) has
no net effect on the filesystem and is omitted.
-/

/-- Behaviour of the `7z a` invocation made by `create_backup`. -/
inductive SevenZipCreateOutcome
  | completed (archiveBytes : Nat)
  | failedMidway (exitCode : Nat) (bytesWritten : Nat)
  | binMissing
deriving DecidableEq, Repr

/-- `destination_path / f"{backup_name}.7z"` (src/backup.py line 109). -/
def archivePath (destination_dir backup_name : String) : String :=
  destination_dir ++ "/" ++ backup_name ++ ".7z"

/-- Result of `create_backup`: the Python return value (`None` or the archive
path), the filesystem afterwards, and the printed messages. -/
structure CreateResult where
  result : Option String
  fs : FS
  msgs : List Msg
deriving DecidableEq, Repr

/-- The message printed when the source directory is absent (line 104). -/
def sourceNotFoundMsg (source_dir : String) : Msg :=
  ⟨.stdout, "Error: Source directory not found at " ++ source_dir⟩

/-- Embedding of `create_backup(source_dir, destination_dir, backup_name, password)`.
The password only reaches the 7z command line and does not influence control
flow, so it is not a parameter.  (Duplicate "Creating backup" prints on
lines 111 and 128 collapsed to one message.) -/
def create_backup (fs : FS) (source_dir destination_dir backup_name : String)
    (tool : SevenZipCreateOutcome) : CreateResult :=
  if fs.isDir source_dir = false then
    ⟨none, fs, [sourceNotFoundMsg source_dir]⟩
  else
    let fs1 := fs.mkdir destination_dir
    let out := archivePath destination_dir backup_name
    match tool with
    | .completed n =>
        ⟨some out, fs1.writeFile out n,
          [⟨.stdout, "Creating backup: " ++ out ++ " using 7z..."⟩,
           ⟨.stdout, "Backup created successfully at: " ++ out⟩]⟩
    | .failedMidway _ k =>
        ⟨none, fs1.writeFile out k,
          [⟨.stdout, "Creating backup: " ++ out ++ " using 7z..."⟩,
           ⟨.stdout, "Error: 7z compression failed. See output above for details."⟩]⟩
    | .binMissing =>
        ⟨none, fs1,
          [⟨.stdout, "Creating backup: " ++ out ++ " using 7z..."⟩,
           ⟨.stdout, "Error: 7z command not found. Please ensure p7zip is installed and in your PATH."⟩]⟩

/-!
### `download_file_from_drive` (src/restore.py lines 152-179)

`io.FileIO(destination_path, 'wb')` opens (creates or truncates) the file
at the final destination path before the first chunk; the chunk loop then
appends into it.  On an exception the `except` branch only prints and
returns `False`, so the bytes written so far stay at `destination_path`
(also when the failure happens at 0 bytes: the empty file created by the
open remains).
-/

/-- Behaviour of the chunked download loop. -/
inductive DownloadOutcome
  | completed
  | failedMidway (bytesWritten : Nat)
deriving DecidableEq, Repr

/-- Embedding of `download_file_from_drive(file_id, file_name, destination_path,
credentials, file_size)`: returns the `True`/`False` result and the
filesystem afterwards. -/
def download_file_from_drive (fs : FS) (destination_path : String) (file_size : Nat)
    (dl : DownloadOutcome) : Bool × FS :=
  match dl with
  | .completed => (true, fs.writeFile destination_path file_size)
  | .failedMidway k => (false, fs.writeFile destination_path k)

/-!
### `restore_backup` (src/restore.py lines 183-220)

The function returns `None` in every branch: there is no result value at
all, success and every failure kind are reported only through printed
messages.  `subprocess.run(..., check=True)` turns any nonzero 7z exit --
including a wrong password -- into `CalledProcessError`, all handled by the
same `except` arm; only `FileNotFoundError` (7z binary missing) has its own
arm.  `target_path.mkdir(parents=True, exist_ok=True)` runs before the
extraction is attempted (line 192).
-/

/-- Behaviour of the `7z x` invocation: full extraction with the files it
writes under the target, a nonzero exit (any cause, wrong password
included), or a missing 7z binary. -/
inductive SevenZipExtractOutcome
  | completed (extracted : List (String × Nat))
  | exitNonzero (returncode : Nat) (stdoutText stderrText : String)
  | binMissing
deriving DecidableEq, Repr

/-- Write each extracted file under the target directory. -/
def writeUnder (fs : FS) (target : String) (files : List (String × Nat)) : FS :=
  files.foldl (fun a e => a.writeFile (target ++ "/" ++ e.1) e.2) fs

/-- Messages of the `CalledProcessError` handler (lines 213-216); identical
shape for every nonzero exit, wrong password or not. -/
def extractFailureMsgs (returncode : Nat) (stdoutText stderrText : String) : List Msg :=
  [⟨.stdout, "Error: 7z extraction failed. Return code: " ++ toString returncode⟩,
   ⟨.stdout, "Stdout: " ++ stdoutText⟩,
   ⟨.stdout, "Stderr: " ++ stderrText⟩]

/-- Embedding of `restore_backup(archive_file_path, target_dir, password)`.
The Python function returns `None` on every path, so the embedding returns
only the filesystem and the printed messages. -/
def restore_backup (fs : FS) (archive_file_path target_dir : String)
    (tool : SevenZipExtractOutcome) : FS × List Msg :=
  if fs.hasFile archive_file_path = false then
    (fs, [⟨.stdout, "Error: 7z archive file not found at " ++ archive_file_path⟩])
  else
    let fs1 := fs.mkdir target_dir
    match tool with
    | .completed ex =>
        (writeUnder fs1 target_dir ex,
         [⟨.stdout, "Extraction complete."⟩,
          ⟨.stdout, "Restore process complete!"⟩])
    | .exitNonzero rc so se => (fs1, extractFailureMsgs rc so se)
    | .binMissing =>
        (fs1, [⟨.stdout, "Error: 7z command not found. Please ensure p7zip is installed and in your PATH."⟩])

/-!
### From-drive restore path of `main` (src/restore.py lines 260-270)

After the interactive selection (external collaborator), the script
downloads to `download_path`, and if `download_file_from_drive` returned
`True` it calls `restore_backup` (which returns `None` and swallows every
exception) and then unconditionally removes `download_path` if it exists.
The `mkdir` of the download directory and the selection loop do not touch
the downloaded file and are outside this model.
-/

/-- Embedding of the from-drive branch after selection: download, extract,
then the cleanup of the downloaded archive. -/
def restoreFromDrive (fs : FS) (download_path target_dir : String) (file_size : Nat)
    (dl : DownloadOutcome) (tool : SevenZipExtractOutcome) : FS :=
  let r := download_file_from_drive fs download_path file_size dl
  if r.1 then
    let fs2 := (restore_backup r.2 download_path target_dir tool).1
    if fs2.hasFile download_path then fs2.removeFile download_path else fs2
  else r.2

/-!
### `main` of src/backup.py (lines 308-376)

`main` never calls `sys.exit`: on a failed `create_backup` it just
`return`s (line 328-329), and the whole Drive block is wrapped in
`try/except Exception` that prints and falls through — so the process exit
code is 0 on every modelled path, and every message goes to stdout.
-/

/-- Outcome of the Google Drive block of `main` (auth + folder + upload). -/
inductive DrivePhaseOutcome
  | authFailed
  | raisedMsg (text : String)
  | uploaded
deriving DecidableEq, Repr

/-- Process-level result of one `main` run. -/
structure MainResult where
  exitCode : Nat
  fs : FS
  msgs : List Msg
deriving DecidableEq, Repr

/-- Embedding of `main` of src/backup.py (the `--clean-all-zips` pass, which
never changes the exit code or streams, is omitted). -/
def backupMain (fs : FS) (source_dir destination_dir backup_name : String) (cleanup : Bool)
    (tool : SevenZipCreateOutcome) (drive : DrivePhaseOutcome) : MainResult :=
  let c := create_backup fs source_dir destination_dir backup_name tool
  match c.result with
  | none => ⟨0, c.fs, c.msgs⟩
  | some archive =>
    match drive with
    | .authFailed =>
        ⟨0, c.fs, c.msgs ++ [⟨.stdout, "Google Drive authentication failed. Skipping upload."⟩]⟩
    | .raisedMsg t =>
        ⟨0, c.fs, c.msgs ++ [⟨.stdout, "An error occurred during Google Drive operations: " ++ t⟩]⟩
    | .uploaded =>
        if cleanup then
          ⟨0, c.fs.removeFile archive,
           c.msgs ++ [⟨.stdout, "Local backup file deleted."⟩]⟩
        else ⟨0, c.fs, c.msgs⟩

/-!
### `print_progress_bar` (src/backup.py lines 204-277; src/restore.py
lines 77-150 is the same function verbatim)

`progress_percent = int((current_bytes / total_bytes) * 100)` is modelled
by exact natural division `current_bytes * 100 / total_bytes` (Python
computes it through a float; the proved order and dedup properties do not
depend on sub-ulp rounding).  The `time.time() - start_time` subtraction
is collapsed into one `elapsed_time : ℚ` argument.  The function's
observable behaviour is the returned `last_printed_percentage` and the
progress line it writes, abstracted to the percentage and the ETA it
displays.
-/

/-- `int((current_bytes / total_bytes) * 100)` for `total_bytes ≠ 0`. -/
def progressPercent (current_bytes total_bytes : Nat) : Int :=
  ((current_bytes * 100) / total_bytes : Nat)

/-- The `eta_seconds` computation (lines 231-237): the spec formulas
`speed = current / elapsed`, `eta = remaining / speed` when
`current_bytes > 0 and elapsed_time > 0`, else 0. -/
def etaSeconds (current_bytes total_bytes : Nat) (elapsed_time : ℚ) : ℚ :=
  if 0 < current_bytes ∧ 0 < elapsed_time then
    let speed_bps : ℚ := (current_bytes : ℚ) / elapsed_time
    let remaining_bytes : ℚ := (total_bytes : ℚ) - (current_bytes : ℚ)
    remaining_bytes / speed_bps
  else 0

/-- One printed progress line, abstracted to the values it shows. -/
structure BarLine where
  percent : Int
  eta : ℚ
deriving DecidableEq, Repr

/-- Embedding of `print_progress_bar(current_bytes, total_bytes, start_time,
last_printed_percentage)`: returns the new `last_printed_percentage` and
the line printed, if any. -/
def print_progress_bar (current_bytes total_bytes : Nat) (elapsed_time : ℚ)
    (last_printed_percentage : Int) : Int × Option BarLine :=
  if total_bytes = 0 then (last_printed_percentage, none)
  else
    let pp := progressPercent current_bytes total_bytes
    if pp % 5 = 0 ∧ last_printed_percentage ≤ pp then
      if pp = last_printed_percentage ∧ pp ≠ 0 then
        (last_printed_percentage, none)
      else
        (pp, some ⟨pp, etaSeconds current_bytes total_bytes elapsed_time⟩)
    else (last_printed_percentage, none)

/-- The transfer loops of `upload_to_drive` (src/backup.py lines 190-198)
and `download_file_from_drive` (src/restore.py lines 165-171) thread
`last_printed_percentage` through successive `print_progress_bar` calls,
one per chunk status; each call is a pair of the chunk's byte count and
the elapsed time at that moment. -/
def runProgressCalls (total_bytes : Nat) (calls : List (Nat × ℚ)) (lp : Int) : Int :=
  calls.foldl (fun a c => (print_progress_bar c.1 total_bytes c.2 a).1) lp

/-!
### Remote folder resolution (src/backup.py lines 338-358)

`main` queries Drive for folders named `DRIVE_FOLDER_NAME`; if the result
list is empty it creates one and uses the fresh id, otherwise it uses
`items[0]['id']`.  The remote store is modelled as the list of its folders
(id, name) in the order the API reports them, plus a fresh-id counter; a
created folder is appended with the next fresh id.
-/

/-- Remote store state for folder resolution. -/
structure DriveState where
  folders : List (Nat × String)
  nextId : Nat
deriving DecidableEq, Repr

/-- The `files().list` query for folders with the given name. -/
def listFolders (s : DriveState) (folder_name : String) : List Nat :=
  (s.folders.filter (fun f => f.2 == folder_name)).map (fun f => f.1)

/-- Embedding of the get-or-create folder logic of `main`. -/
def getOrCreateFolder (s : DriveState) (folder_name : String) : Nat × DriveState :=
  match listFolders s folder_name with
  | [] => (s.nextId, ⟨s.folders ++ [(s.nextId, folder_name)], s.nextId + 1⟩)
  | id :: _ => (id, s)

/-!
### `list_drive_backups` (src/restore.py lines 44-75)

The whole body sits in a `try` whose `except` arm returns `[]`; a missing
`Backups` folder also returns `[]` before the file listing.  Otherwise the
`.7z` entries of the folder are returned as
`sorted(backups, key=lambda x: x['modifiedTime'], reverse=True)` — a
stable sort on the `modifiedTime` string, descending; the stable
descending sort is embedded as `List.insertionSort` with the relation
"modifiedTime at least as large".
-/

/-- One `RemoteEntry` as the Drive API reports it (`files(id, name, size,
modifiedTime)`); `modifiedTime` is the ISO-8601 string the API returns. -/
structure RemoteEntry where
  id : String
  name : String
  size : Nat
  modifiedTime : String
deriving DecidableEq, Repr

/-- Result of one API call inside the `try` block: a value, or an exception
caught by the `except` arm. -/
inductive ApiResult (α : Type)
  | ok (val : α)
  | raised

/-- Descending order on the `modifiedTime` field (ties allowed). -/
def byModifiedDesc (a b : RemoteEntry) : Prop := b.modifiedTime ≤ a.modifiedTime

instance : DecidableRel byModifiedDesc :=
  fun a b => inferInstanceAs (Decidable (b.modifiedTime ≤ a.modifiedTime))

instance : IsTotal RemoteEntry byModifiedDesc :=
  ⟨fun a b => le_total b.modifiedTime a.modifiedTime⟩

instance : IsTrans RemoteEntry byModifiedDesc :=
  ⟨fun _ _ _ hab hbc => le_trans hbc hab⟩

/-- Embedding of `list_drive_backups(credentials, drive_folder_name)`:
`folderIdsResult` is the folder query (ids of folders with the wanted
name), `filesResult` the `.7z` listing inside the first such folder. -/
def list_drive_backups (folderIdsResult : ApiResult (List String))
    (filesResult : ApiResult (List RemoteEntry)) : List RemoteEntry :=
  match folderIdsResult with
  | .raised => []
  | .ok [] => []
  | .ok (_ :: _) =>
    match filesResult with
    | .raised => []
    | .ok backups => List.insertionSort byModifiedDesc backups

/-!
### Helper lemmas about the filesystem model
-/

/-- After `writeFile p n` the file at `p` has size `n`. -/
theorem fileSize_writeFile (fs : FS) (p : String) (n : Nat) :
    (fs.writeFile p n).fileSize p = some n := by
  unfold FS.writeFile FS.fileSize
  rw [List.find?_cons_of_pos]
  · rfl
  · simp

/-- After `removeFile p` no file at `p` remains. -/
theorem hasFile_removeFile (fs : FS) (p : String) :
    (fs.removeFile p).hasFile p = false := by
  simp only [FS.removeFile, FS.hasFile, List.any_eq_false]
  intro e he
  simpa using (List.mem_filter.mp he).2

/-- `mkdir p` makes `p` a directory. -/
theorem isDir_mkdir (fs : FS) (p : String) : (fs.mkdir p).isDir p = true := by
  unfold FS.mkdir FS.isDir
  split
  · assumption
  · simp

/-- `mkdir` leaves the files untouched. -/
theorem files_mkdir (fs : FS) (p : String) : (fs.mkdir p).files = fs.files := by
  unfold FS.mkdir
  split <;> rfl

/-!
### Claim theorems
-/

/-- C2: for every nonexistent source path, `create_backup` returns the
source-not-found failure (result `None` with the SourceNotFound error
message) and leaves the filesystem exactly as it was: no archive file is
created and the destination directory is not created, for every possible
behaviour of the 7z tool. -/
theorem create_backup_source_missing (fs : FS)
    (source_dir destination_dir backup_name : String) (tool : SevenZipCreateOutcome)
    (h : fs.isDir source_dir = false) :
    create_backup fs source_dir destination_dir backup_name tool
      = ⟨none, fs, [sourceNotFoundMsg source_dir]⟩ := by
  unfold create_backup
  rw [h]
  rfl

/-- Witness for C2 at a concrete empty filesystem. -/
theorem create_backup_source_missing_witness :
    (FS.mk [] []).isDir "src" = false ∧
    create_backup ⟨[], []⟩ "src" "dst" "b" (.completed 10)
      = ⟨none, ⟨[], []⟩, [sourceNotFoundMsg "src"]⟩ :=
  ⟨by decide, create_backup_source_missing ⟨[], []⟩ "src" "dst" "b" (.completed 10) (by decide)⟩

/-- C8: remote-folder resolution is idempotent in sequential execution:
running the get-or-create logic twice from any initial remote-store state
yields the same folder identifier both times, and the second run changes
nothing. -/
theorem getOrCreateFolder_idempotent (s : DriveState) (folder_name : String) :
    (getOrCreateFolder (getOrCreateFolder s folder_name).2 folder_name).1
      = (getOrCreateFolder s folder_name).1 ∧
    (getOrCreateFolder (getOrCreateFolder s folder_name).2 folder_name).2
      = (getOrCreateFolder s folder_name).2 := by
  cases h : listFolders s folder_name with
  | nil =>
      have hf : s.folders.filter (fun f => f.2 == folder_name) = [] := by
        have h' := h
        unfold listFolders at h'
        exact List.map_eq_nil_iff.mp h'
      have h2 : listFolders ⟨s.folders ++ [(s.nextId, folder_name)], s.nextId + 1⟩ folder_name
          = [s.nextId] := by
        simp [listFolders, List.filter_append, hf]
      simp [getOrCreateFolder, h, h2]
  | cons i rest => simp [getOrCreateFolder, h]

/-- C9: `list_drive_backups` returns the remote `.7z` entries sorted by
their `modifiedTime` field in descending order (a permutation of what the
store reports, pairwise ordered newest first); it returns `[]` when the
folder query raises, when no folder with the wanted name exists, and when
the file listing raises. -/
theorem list_drive_backups_sorted_desc (fid : String) (rest : List String)
    (bs : List RemoteEntry) (r : ApiResult (List RemoteEntry)) :
    list_drive_backups .raised r = [] ∧
    list_drive_backups (.ok []) r = [] ∧
    list_drive_backups (.ok (fid :: rest)) .raised = [] ∧
    (list_drive_backups (.ok (fid :: rest)) (.ok bs)).Perm bs ∧
    List.Sorted byModifiedDesc (list_drive_backups (.ok (fid :: rest)) (.ok bs)) :=
  ⟨rfl, rfl, rfl,
   List.perm_insertionSort byModifiedDesc bs,
   List.sorted_insertionSort byModifiedDesc bs⟩

/-- C10: in the from-drive restore path, whenever the download succeeds the
downloaded archive file is absent from the final filesystem, for every
extraction outcome — success, nonzero 7z exit (wrong password included),
or missing 7z binary. -/
theorem restoreFromDrive_removes_downloaded_archive (fs : FS)
    (download_path target_dir : String) (file_size : Nat)
    (tool : SevenZipExtractOutcome) :
    (restoreFromDrive fs download_path target_dir file_size .completed tool).hasFile
      download_path = false := by
  unfold restoreFromDrive
  simp only [download_file_from_drive]
  split
  · split
    · exact hasFile_removeFile _ _
    · next h =>
        simp at h
        exact h
  · next h => simp at h

/-- C1, counterexample: a partial artifact IS left under its final name.
Concretely, a download of a 1000-byte file that fails after 500 bytes
leaves a 500-byte file at the requested destination path (and returns
`False`); likewise a `create_backup` whose 7z invocation exits nonzero
after writing 500 bytes leaves those bytes at the final archive path. -/
theorem partial_artifact_left_at_final_path :
    (download_file_from_drive ⟨[], []⟩ "restored_data.7z" 1000 (.failedMidway 500)).1
      = false ∧
    (download_file_from_drive ⟨[], []⟩ "restored_data.7z" 1000
        (.failedMidway 500)).2.fileSize "restored_data.7z" = some 500 ∧
    (create_backup ⟨[], ["src"]⟩ "src" "dst" "b" (.failedMidway 2 500)).result = none ∧
    (create_backup ⟨[], ["src"]⟩ "src" "dst" "b" (.failedMidway 2 500)).fs.fileSize
        (archivePath "dst" "b") = some 500 := by
  refine ⟨rfl, ?_, rfl, ?_⟩ <;> decide

/-- C1 amended: `create_backup` hands the 7z process the final archive path
directly and `download_file_from_drive` opens the final destination path
directly; on a mid-run failure the function returns failure (`None` /
`False`) but the partially-written bytes remain at the requested final
path — no temporary name and no rename are involved. -/
theorem partial_artifact_remains_on_failure (fs : FS)
    (source_dir destination_dir backup_name dp : String) (ec k j file_size : Nat)
    (h : fs.isDir source_dir = true) :
    (create_backup fs source_dir destination_dir backup_name (.failedMidway ec k)).result
      = none ∧
    (create_backup fs source_dir destination_dir backup_name (.failedMidway ec k)).fs.fileSize
        (archivePath destination_dir backup_name) = some k ∧
    (download_file_from_drive fs dp file_size (.failedMidway j)).1 = false ∧
    (download_file_from_drive fs dp file_size (.failedMidway j)).2.fileSize dp = some j := by
  unfold create_backup download_file_from_drive
  rw [h]
  exact ⟨rfl, fileSize_writeFile _ _ _, rfl, fileSize_writeFile _ _ _⟩

/-- Witness for the amended C1 at a concrete filesystem. -/
theorem partial_artifact_remains_on_failure_witness :
    (FS.mk [] ["src"]).isDir "src" = true ∧
    (create_backup ⟨[], ["src"]⟩ "src" "dst" "b" (.failedMidway 2 500)).fs.fileSize
        (archivePath "dst" "b") = some 500 :=
  ⟨by decide,
   (partial_artifact_remains_on_failure ⟨[], ["src"]⟩ "src" "dst" "b" "x" 2 500 7 9
     (by decide)).2.1⟩

/-- C3, counterexample: a failed extraction does NOT leave the target
untouched and does NOT return a distinguished BadPassword failure.
Concretely, with the archive present and the target directory absent, a
7z run that exits nonzero because of a wrong password still creates the
target directory; and the resulting filesystem is identical to the one
produced by any other tool failure (`restore_backup` has no result value
to distinguish them). -/
theorem restore_failed_extract_creates_target_dir :
    ((restore_backup ⟨[("a.7z", 100)], []⟩ "a.7z" "restored_data"
        (.exitNonzero 2 "" "Wrong password?")).1.isDir "restored_data") = true ∧
    ((FS.mk [("a.7z", 100)] []).isDir "restored_data") = false ∧
    (restore_backup ⟨[("a.7z", 100)], []⟩ "a.7z" "restored_data"
        (.exitNonzero 2 "" "Wrong password?")).1
      = (restore_backup ⟨[("a.7z", 100)], []⟩ "a.7z" "restored_data"
          (.exitNonzero 1 "" "E_FAIL")).1 := by
  refine ⟨?_, ?_, ?_⟩ <;> decide

/-- C3 amended: on any nonzero 7z exit (wrong password included)
`restore_backup` returns no result value; its entire observable outcome is
the uniform `CalledProcessError` message list (the same shape for every
exit code and stderr text, so BadPassword is not distinguished from a
generic tool failure, only the binary-missing case has its own message),
the files of the filesystem are unchanged, and the target directory has
been created before the extraction was attempted. -/
theorem restore_backup_uniform_failure_and_mkdir (fs : FS)
    (archive target : String) (rc : Nat) (so se : String)
    (h : fs.hasFile archive = true) :
    restore_backup fs archive target (.exitNonzero rc so se)
      = (fs.mkdir target, extractFailureMsgs rc so se) ∧
    (restore_backup fs archive target (.exitNonzero rc so se)).1.files = fs.files ∧
    (restore_backup fs archive target (.exitNonzero rc so se)).1.isDir target = true := by
  unfold restore_backup
  rw [h]
  exact ⟨rfl, files_mkdir _ _, isDir_mkdir _ _⟩

/-- Witness for the amended C3 at a concrete filesystem. -/
theorem restore_backup_uniform_failure_and_mkdir_witness :
    (FS.mk [("a.7z", 100)] []).hasFile "a.7z" = true ∧
    (restore_backup ⟨[("a.7z", 100)], []⟩ "a.7z" "restored_data"
        (.exitNonzero 2 "" "Wrong password?")).1.isDir "restored_data" = true :=
  ⟨by decide,
   (restore_backup_uniform_failure_and_mkdir ⟨[("a.7z", 100)], []⟩ "a.7z" "restored_data"
     2 "" "Wrong password?" (by decide)).2.2⟩

/-- C4, counterexample: on an unrecovered error the process exit code is
NOT nonzero and the error is NOT printed to the error stream.  Concretely,
with the source directory missing, `main` returns (exit code 0) and the
single error message goes to stdout. -/
theorem backupMain_exit_zero_on_error :
    (backupMain ⟨[], []⟩ "src" "dst" "b" false (.completed 10) .uploaded).exitCode = 0 ∧
    (backupMain ⟨[], []⟩ "src" "dst" "b" false (.completed 10) .uploaded).msgs
      = [sourceNotFoundMsg "src"] ∧
    (sourceNotFoundMsg "src").stream = .stdout := by
  refine ⟨rfl, ?_, rfl⟩
  decide

/-- C4 amended: the backup command's process exit code is 0 in every case —
success, missing source, 7z failure, missing 7z binary, failed
authentication and upload errors alike (`main` never calls `sys.exit`) —
and every message, error messages included, is printed to standard output,
never to the error stream. -/
theorem backupMain_always_exit_zero_stdout (fs : FS)
    (source_dir destination_dir backup_name : String) (cleanup : Bool)
    (tool : SevenZipCreateOutcome) (drive : DrivePhaseOutcome) :
    (backupMain fs source_dir destination_dir backup_name cleanup tool drive).exitCode = 0 ∧
    ∀ m ∈ (backupMain fs source_dir destination_dir backup_name cleanup tool drive).msgs,
      m.stream = .stdout := by
  by_cases h : fs.isDir source_dir = false <;>
    cases tool <;> cases drive <;> cases cleanup <;>
      simp [backupMain, create_backup, h, sourceNotFoundMsg]

/-- Witness for the amended C4 at concrete inputs. -/
theorem backupMain_always_exit_zero_stdout_witness :
    (backupMain ⟨[], []⟩ "src" "dst" "b" false (.completed 10) .uploaded).exitCode = 0 ∧
    (sourceNotFoundMsg "src").stream = .stdout :=
  ⟨(backupMain_always_exit_zero_stdout ⟨[], []⟩ "src" "dst" "b" false (.completed 10)
      .uploaded).1,
   (backupMain_always_exit_zero_stdout ⟨[], []⟩ "src" "dst" "b" false (.completed 10)
      .uploaded).2 (sourceNotFoundMsg "src") (by decide)⟩

/-!
### Helper lemmas about the progress bar
-/

/-- The returned `last_printed_percentage` never decreases. -/
theorem le_print_progress_bar (cb tb : Nat) (e : ℚ) (lp : Int) :
    lp ≤ (print_progress_bar cb tb e lp).1 := by
  unfold print_progress_bar
  split
  · exact le_refl lp
  · dsimp only
    split
    · split
      · exact le_refl lp
      · next hguard _ => exact hguard.2
    · exact le_refl lp

/-- The computed percentage is at most 100 when `cb ≤ tb`. -/
theorem progressPercent_le_100 (cb tb : Nat) (hle : cb ≤ tb) (htb : 0 < tb) :
    progressPercent cb tb ≤ 100 := by
  unfold progressPercent
  have h : cb * 100 / tb ≤ 100 := by
    calc cb * 100 / tb ≤ tb * 100 / tb := Nat.div_le_div_right (Nat.mul_le_mul_right 100 hle)
    _ = 100 := Nat.mul_div_cancel_left 100 htb
  exact_mod_cast h

/-- The returned `last_printed_percentage` stays at most `max lp 100` when
`cb ≤ tb`. -/
theorem print_progress_bar_le_max (cb tb : Nat) (e : ℚ) (lp : Int) (hle : cb ≤ tb) :
    (print_progress_bar cb tb e lp).1 ≤ max lp 100 := by
  unfold print_progress_bar
  split
  · exact le_max_left lp 100
  · next htb =>
      dsimp only
      split
      · split
        · exact le_max_left lp 100
        · exact le_trans (progressPercent_le_100 cb tb hle (Nat.pos_of_ne_zero htb))
            (le_max_right lp 100)
      · exact le_max_left lp 100

/-- Any printed line shows a percentage of at most 100 when `cb ≤ tb`. -/
theorem print_progress_bar_emit_le (cb tb : Nat) (e : ℚ) (lp : Int) (hle : cb ≤ tb) :
    ∀ line ∈ (print_progress_bar cb tb e lp).2, line.percent ≤ 100 := by
  unfold print_progress_bar
  split
  · simp
  · next htb =>
      dsimp only
      split
      · split
        · simp
        · intro line hl
          rw [Option.mem_def, Option.some_inj] at hl
          rw [← hl]
          exact progressPercent_le_100 cb tb hle (Nat.pos_of_ne_zero htb)
      · simp

/-- A call at exactly the total byte count returns 100, whatever the
previous value was (as long as it stayed in range). -/
theorem print_progress_bar_at_total (tb : Nat) (e : ℚ) (lp : Int)
    (htb : 0 < tb) (hlp : lp ≤ 100) :
    (print_progress_bar tb tb e lp).1 = 100 := by
  have hpp : progressPercent tb tb = 100 := by
    unfold progressPercent
    rw [Nat.mul_div_cancel_left 100 htb]
    rfl
  unfold print_progress_bar
  rw [if_neg (Nat.pos_iff_ne_zero.mp htb)]
  simp only [hpp]
  rw [if_pos ⟨by norm_num, hlp⟩]
  by_cases h100 : (100 : Int) = lp ∧ (100 : Int) ≠ 0
  · rw [if_pos h100]
    exact h100.1.symm
  · rw [if_neg h100]

/-- Threading `last_printed_percentage` through any chunk sequence bounded
by the total keeps it at most 100. -/
theorem runProgressCalls_le_100 (tb : Nat) (calls : List (Nat × ℚ)) (lp : Int)
    (hlp : lp ≤ 100) (h : ∀ c ∈ calls, c.1 ≤ tb) :
    runProgressCalls tb calls lp ≤ 100 := by
  induction calls generalizing lp with
  | nil => simpa [runProgressCalls] using hlp
  | cons c cs ih =>
      have h1 : (print_progress_bar c.1 tb c.2 lp).1 ≤ 100 :=
        le_trans (print_progress_bar_le_max c.1 tb c.2 lp (h c (by simp)))
          (max_le hlp (le_refl 100))
      simpa [runProgressCalls, List.foldl_cons] using
        ih _ h1 (fun x hx => h x (by simp [hx]))

/-- Splitting the last call off a chunk sequence. -/
theorem runProgressCalls_append_single (tb : Nat) (pre : List (Nat × ℚ))
    (c : Nat × ℚ) (lp : Int) :
    runProgressCalls tb (pre ++ [c]) lp
      = (print_progress_bar c.1 tb c.2 (runProgressCalls tb pre lp)).1 := by
  simp [runProgressCalls, List.foldl_append]

/-- C5: transfer progress is monotonic and bounded: every
`print_progress_bar` call returns a `last_printed_percentage` at least its
argument; when `current_bytes ≤ total_bytes` any printed percentage is at
most 100 and the returned value stays at most `max lp 100`; and threading
the value through a chunk sequence (all chunks within the total, starting
from the initial -1) whose final status equals the declared total ends
with the reported value 100, i.e. exactly the declared total size. -/
theorem progress_monotone_bounded_total (cb tb : Nat) (e : ℚ) (lp : Int)
    (pre : List (Nat × ℚ)) (lastCall : Nat × ℚ) :
    lp ≤ (print_progress_bar cb tb e lp).1 ∧
    (cb ≤ tb → ∀ line ∈ (print_progress_bar cb tb e lp).2, line.percent ≤ 100) ∧
    (cb ≤ tb → (print_progress_bar cb tb e lp).1 ≤ max lp 100) ∧
    ((∀ c ∈ pre, c.1 ≤ tb) → lastCall.1 = tb → 0 < tb →
      runProgressCalls tb (pre ++ [lastCall]) (-1) = 100) := by
  refine ⟨le_print_progress_bar cb tb e lp,
    fun hle => print_progress_bar_emit_le cb tb e lp hle,
    fun hle => print_progress_bar_le_max cb tb e lp hle, ?_⟩
  intro hpre hlast htb
  rw [runProgressCalls_append_single, hlast]
  exact print_progress_bar_at_total tb lastCall.2 _ htb
    (runProgressCalls_le_100 tb pre (-1) (by norm_num) hpre)

/-- Witness for C5: a 1000-byte transfer reported at 500 then 1000 bytes
ends with the reported value 100. -/
theorem progress_monotone_bounded_total_witness :
    ((-1 : Int) ≤ (print_progress_bar 500 1000 1 (-1)).1) ∧
    runProgressCalls 1000 ([(500, 1)] ++ [(1000, 2)]) (-1) = 100 :=
  ⟨(progress_monotone_bounded_total 500 1000 1 (-1) [] (0, 0)).1,
   (progress_monotone_bounded_total 500 1000 1 (-1) [(500, 1)] (1000, 2)).2.2.2
     (by
       intro c hc
       rw [List.mem_singleton] at hc
       subst hc
       decide)
     rfl (by norm_num)⟩

/-- C6: the percentage deduplication fails for 0: the dedup guard
(line 227 of src/backup.py, line 100 of src/restore.py) exempts 0, so two
consecutive calls that both compute percentage 0 (here: 0 bytes of a
1000-byte transfer, twice) BOTH print the 0% line — the code re-emits the
same percentage, contradicting the spec and the code's own comment. -/
theorem progress_zero_percent_reprinted :
    (print_progress_bar 0 1000 1 (-1)).2 = some ⟨0, 0⟩ ∧
    (print_progress_bar 0 1000 1 ((print_progress_bar 0 1000 1 (-1)).1)).2
      = some ⟨0, 0⟩ := by
  constructor <;> decide

/-- C7: the speed and ETA computation is total and follows the spec
formulas: whenever `current_bytes > 0` and `elapsed_time > 0` the ETA is
`(total - current) / (current / elapsed)` and both divisors are nonzero;
when `current_bytes = 0` or `elapsed_time ≤ 0` the ETA is reported as 0;
and with `total_bytes = 0` the function returns before any division. -/
theorem etaSeconds_spec_total (cb tb : Nat) (e : ℚ) (lp : Int) :
    etaSeconds cb tb e
      = (if 0 < cb ∧ 0 < e then ((tb : ℚ) - (cb : ℚ)) / ((cb : ℚ) / e) else 0) ∧
    (0 < cb → 0 < e → (cb : ℚ) / e ≠ 0 ∧ e ≠ 0) ∧
    (cb = 0 ∨ e ≤ 0 → etaSeconds cb tb e = 0) ∧
    print_progress_bar cb 0 e lp = (lp, none) := by
  refine ⟨rfl, ?_, ?_, rfl⟩
  · intro h1 h2
    have hc : (0 : ℚ) < (cb : ℚ) := by exact_mod_cast h1
    exact ⟨ne_of_gt (div_pos hc h2), ne_of_gt h2⟩
  · intro h
    unfold etaSeconds
    rw [if_neg]
    rintro ⟨hc, he⟩
    rcases h with h | h
    · rw [h] at hc
      exact lt_irrefl 0 hc
    · exact absurd he (not_lt.mpr h)

/-- Witness for C7: concrete evaluation at 50 of 1000 bytes after 2
seconds, ETA (1000 - 50) / (50 / 2) = 38 seconds, with both divisors
nonzero. -/
theorem etaSeconds_spec_total_witness :
    etaSeconds 50 1000 2 = 38 ∧ ((50 : Nat) : ℚ) / 2 ≠ 0 := by
  constructor
  · rw [(etaSeconds_spec_total 50 1000 2 0).1]
    norm_num
  · exact ((etaSeconds_spec_total 50 1000 2 0).2.1 (by norm_num) (by norm_num)).1

end DataRecovery
